import Mathlib

/-!
Shallow embedding of the roulette Monte-Carlo simulator in `src/main.py`
(repository `casin`).  Python classes become Lean structures, methods become
functions, in-place mutation becomes explicit state passing, and exceptions
become `Except` results.  Amounts, stakes and odds are Python ints, modelled
as `Int`; bin indices are `Nat`.
-/

namespace Roulette

/-- `Outcome` (main.py lines 5-38): a named bet target with integer odds.
Python `__eq__`/`__hash__` compare by `name` only; everywhere the source
relies on set membership we therefore compare names. -/
structure Outcome where
  name : String
  odds : Int
deriving Repr, DecidableEq

/-- `Outcome.winAmount` (line 17): odds multiplied by the staked amount. -/
def Outcome.winAmount (o : Outcome) (amount : Int) : Int :=
  o.odds * amount

/-- `Bin` (line 41) is a frozenset of Outcomes with name-based equality.
Modelled as a list whose insertion operation deduplicates by name; only
membership (by name) is ever observed. -/
abbrev Bin := List Outcome

/-- Set-union insertion used by `Wheel.addOutcome` (line 69):
`Bin(self.bins[number] | Bin([outcome]))` keeps the bin unchanged when an
outcome with the same name is already present, and adds the outcome
otherwise.  The same name-keyed `add` semantics applies to the Python `set`
`all_outcomes` (line 68). -/
def binInsert (b : Bin) (o : Outcome) : Bin :=
  if b.any (fun x => x.name == o.name) then b else b ++ [o]

/-- `Wheel` (lines 51-84): 38 bins, the set of all distinct outcomes, and a
seeded random generator.  The generator itself is Python's `random.Random`
(outside this repository); we record the seed (line 61 seeds it with 4) and
model the stream of `randint(0, 37)` draws it produces as an explicit
function parameter wherever the wheel is spun. -/
structure Wheel where
  bins : List Bin
  all_outcomes : List Outcome
  rngSeed : Nat

/-- `Wheel.addOutcome` (lines 66-73): add the outcome to `all_outcomes` and
union it into the bin at `number`. -/
def Wheel.addOutcome (w : Wheel) (number : Nat) (o : Outcome) : Wheel :=
  { w with
    all_outcomes := binInsert w.all_outcomes o,
    bins := w.bins.set number (binInsert (w.bins.getD number []) o) }

/-- `Wheel.get` (lines 78-79): direct bin lookup by index. -/
def Wheel.get (w : Wheel) (bin : Nat) : Bin :=
  w.bins.getD bin []

/-- `Wheel.getOutcome` (lines 81-84): first outcome in `all_outcomes` whose
name matches, `none` when absent (the Python loop falls through returning
`None`). -/
def Wheel.getOutcome (w : Wheel) (outcomeName : String) : Option Outcome :=
  w.all_outcomes.find? (fun o => o.name == outcomeName)

/-- `BinBuilder.straightBets` (lines 104-115): one 35:1 outcome per number
0-36 plus one for "00" in bin 37. -/
def straightBets : List (Nat × Outcome) :=
  ((List.range 37).map (fun i => (i, Outcome.mk (toString i) 35)))
    ++ [(37, Outcome.mk "00" 35)]

/-- `BinBuilder.splitBets` (lines 117-137): 17:1 outcomes for horizontal
pairs (n, n+1) with n in range(1,35,3) + range(2,36,3) and vertical pairs
(n, n+3) with n in range(1,34). -/
def splitBets : List (Nat × Outcome) :=
  let plusone := List.range' 1 12 3 ++ List.range' 2 12 3
  let plusthree := List.range' 1 33
  (plusone.flatMap (fun i =>
    let s := "Split " ++ toString i ++ "-" ++ toString (i + 1)
    [(i, Outcome.mk s 17), (i + 1, Outcome.mk s 17)]))
  ++ (plusthree.flatMap (fun i =>
    let s := "Split " ++ toString i ++ "-" ++ toString (i + 3)
    [(i, Outcome.mk s 17), (i + 3, Outcome.mk s 17)]))

/-- `BinBuilder.streetBets` (lines 139-149): 11:1 outcomes for each row of
three numbers starting at range(1,35,3). -/
def streetBets : List (Nat × Outcome) :=
  (List.range' 1 12 3).flatMap (fun i =>
    let s := "Street " ++ toString i ++ "-" ++ toString (i + 1) ++ "-"
      ++ toString (i + 2)
    (List.range 3).map (fun j => (i + j, Outcome.mk s 11)))

/-- `BinBuilder.lineBets` (lines 151-161): 5:1 outcomes for each pair of
adjacent streets, starting at range(1,33,3). -/
def lineBets : List (Nat × Outcome) :=
  (List.range' 1 11 3).flatMap (fun i =>
    let s := "Line " ++ toString i ++ "-" ++ toString (i + 1) ++ "-"
      ++ toString (i + 2) ++ "-" ++ toString (i + 3) ++ "-"
      ++ toString (i + 4) ++ "-" ++ toString (i + 5)
    (List.range 6).map (fun j => (i + j, Outcome.mk s 5)))

/-- `BinBuilder.dozenBets` (lines 163-173): 2:1 outcomes for the dozens
starting at 1, 13 and 25. -/
def dozenBets : List (Nat × Outcome) :=
  ([1, 13, 25] : List Nat).flatMap (fun i =>
    let s := "Dozen " ++ toString i ++ "-" ++ toString (i + 11)
    (List.range 12).map (fun j => (i + j, Outcome.mk s 2)))

/-- `BinBuilder.cornerBets` (lines 175-182): the body only creates and
returns an empty list; no corner outcome is ever produced. -/
def cornerBets : List (Nat × Outcome) := []

/-- The fixed red set of `BinBuilder.outsideBets` (line 185). -/
def redNumbers : List Nat :=
  [1, 3, 5, 7, 9, 12, 14, 16, 18, 19, 21, 23, 25, 27, 30, 32, 34, 36]

/-- `BinBuilder.outsideBets` (lines 184-200): for every number 1-36, a
Low/High outcome, an Even/Odd outcome and a Red/Black outcome, all at 1:1. -/
def outsideBets : List (Nat × Outcome) :=
  (List.range' 1 36).flatMap (fun i =>
    [(i, if i < 19 then Outcome.mk "Low" 1 else Outcome.mk "High" 1),
     (i, if i % 2 == 0 then Outcome.mk "Even" 1 else Outcome.mk "Odd" 1),
     (i, if redNumbers.contains i then Outcome.mk "Red" 1
         else Outcome.mk "Black" 1)])

/-- The concatenation order of `BinBuilder.buildBins` (lines 96-99):
straight + split + street + corner, then line + dozen + outside. -/
def allBinBuilderBets : List (Nat × Outcome) :=
  straightBets ++ splitBets ++ streetBets ++ cornerBets
    ++ lineBets ++ dozenBets ++ outsideBets

/-- `BinBuilder.buildBins` (lines 96-102): fold every (bin, outcome) pair
into the wheel via `addOutcome`. -/
def BinBuilder.buildBins (w : Wheel) : Wheel :=
  allBinBuilderBets.foldl (fun w p => w.addOutcome p.1 p.2) w

/-- `Wheel.__init__` (lines 58-64): 38 empty bins, generator seeded with 4,
empty outcome set, then `BinBuilder.buildBins`. -/
def Wheel.init : Wheel :=
  BinBuilder.buildBins
    { bins := List.replicate 38 [], all_outcomes := [], rngSeed := 4 }

/-- The wheel as built by the top-level driver (line 496). -/
def theWheel : Wheel := Wheel.init

/-- `Bet` (lines 203-226): an amount staked on one outcome. -/
structure Bet where
  amount : Int
  outcome : Outcome
deriving Repr, DecidableEq

/-- `Bet.winAmount` (lines 213-215): the staked amount plus the outcome's
profit on that amount. -/
def Bet.winAmount (b : Bet) : Int :=
  b.amount + b.outcome.winAmount b.amount

/-- `Bet.loseAmount` (lines 217-218): the staked amount. -/
def Bet.loseAmount (b : Bet) : Int :=
  b.amount

/-- `Table` (lines 229-263): a betting limit, the current list of bets, and
the wheel the table plays on. -/
structure Table where
  limit : Int
  bets : List Bet
  wheel : Wheel

/-- `Table.__init__` (lines 235-238). -/
def Table.init (limit : Int) (w : Wheel) : Table :=
  { limit := limit, bets := [], wheel := w }

/-- `Table.isValid` (lines 256-260): false iff the amounts of the bets
currently on the table sum to more than the limit.  Note that the `bet`
argument is ignored by the body. -/
def Table.isValid (t : Table) (_bet : Bet) : Bool :=
  if (t.bets.map Bet.amount).sum > t.limit then false else true

/-- `Table.placeBet` (lines 240-245): append the bet to the list FIRST,
then check `isValid` on the mutated table; raise `InvalidBet` when invalid.
The `Except.error` payload is the table state left behind by the raise,
which still contains the appended bet. -/
def Table.placeBet (t : Table) (bet : Bet) : Except Table Table :=
  let t' := { t with bets := t.bets ++ [bet] }
  if t'.isValid bet then Except.ok t' else Except.error t'

/-- `Table.clearBets` (lines 262-263). -/
def Table.clearBets (t : Table) : Table :=
  { t with bets := [] }

/-- Whether `placeBet` raised `InvalidBet`. -/
def placeBetRaised : Except Table Table → Bool
  | Except.ok _ => false
  | Except.error _ => true

/-- The table state after `placeBet`, raise or no raise (Python mutates
`self.bets` in place, so the state survives the exception). -/
def tableAfter : Except Table Table → Table
  | Except.ok t => t
  | Except.error t => t

/-- The runtime errors the embedded code can signal: `invalidBet` is the
source's `InvalidBet` exception (lines 436-443); `attributeError` models a
Python `AttributeError` on reading an attribute that was never assigned;
`indexError` models indexing an empty list; `valueError` models
`max([])` (line 482); `outOfFuel` is a modelling artifact marking the
session loop running past its bounded fuel, which is unreachable whenever
the configured rounds budget is non-negative. -/
inductive PErr where
  | invalidBet
  | attributeError (attr : String)
  | indexError
  | valueError
  | outOfFuel
deriving Repr, DecidableEq

/-- The attribute state of a player object.  Python objects carry a dynamic
attribute dictionary; `specificBet` and `sequence` are `Option`s because the
strategy initializers that would assign them can fail to run (they are
spelled `_init_`, see `PlayerRandom.construct`); reading them unset raises
`AttributeError`.  `lossCount`/`betMultiple` are only ever read on
Martingale players, whose `__init__` always assigns them, so they are kept
total with Martingale's initial values. -/
structure PlayerState where
  stake : Int
  roundsToGo : Int
  initialBet : Int
  nextBet : Int
  specificBet : Option Outcome
  sequence : Option (List Int)
  lossCount : Int
  betMultiple : Int
deriving Repr, DecidableEq

/-- `Player.__init__` (lines 321-326): stake 200, 30 rounds to go, initial
and next bet 10.  It assigns none of the strategy-specific attributes. -/
def Player.init : PlayerState :=
  { stake := 200, roundsToGo := 30, initialBet := 10, nextBet := 10,
    specificBet := none, sequence := none,
    lossCount := 0, betMultiple := 1 }

/-- `Player.isPlaying` (lines 336-337). -/
def PlayerState.isPlaying (p : PlayerState) : Bool :=
  decide (p.nextBet ≤ p.stake) && !(p.roundsToGo == 0)

/-- `Player.win` (lines 328-330). -/
def Player.win (p : PlayerState) (b : Bet) : PlayerState :=
  { p with stake := p.stake + b.winAmount }

/-- `Player.lose` (lines 332-334). -/
def Player.lose (p : PlayerState) (b : Bet) : PlayerState :=
  { p with stake := p.stake - b.loseAmount }

/-- `Player.placeBets` (lines 339-346): when playing, build a bet of size
`nextBet` on `self.specificBet` and submit it; an unset `specificBet` is an
`AttributeError`, and a table rejection re-raises `InvalidBet`.  Errors
carry the player and table state left behind by the raise. -/
def Player.placeBets (p : PlayerState) (t : Table) :
    Except (PErr × PlayerState × Table) (PlayerState × Table) :=
  if p.isPlaying then
    match p.specificBet with
    | none => Except.error (PErr.attributeError "specificBet", p, t)
    | some oc =>
      match t.placeBet { amount := p.nextBet, outcome := oc } with
      | Except.ok t' => Except.ok (p, t')
      | Except.error t' => Except.error (PErr.invalidBet, p, t')
  else Except.ok (p, t)

/-- `Player.reset` (lines 348-349): the body is `pass`. -/
def Player.reset (p : PlayerState) : PlayerState := p

/-- `Martingale.__init__` (lines 358-362): base init plus `lossCount = 0`,
`betMultiple = 1` and `specificBet = table.wheel.getOutcome('Black')`. -/
def Martingale.init (t : Table) : PlayerState :=
  { Player.init with
    lossCount := 0, betMultiple := 1,
    specificBet := t.wheel.getOutcome "Black" }

/-- `Martingale.placeBets` (lines 364-366): recompute
`nextBet = initialBet * betMultiple`, then the base `placeBets`. -/
def Martingale.placeBets (p : PlayerState) (t : Table) :
    Except (PErr × PlayerState × Table) (PlayerState × Table) :=
  Player.placeBets { p with nextBet := p.initialBet * p.betMultiple } t

/-- `Martingale.win` (lines 368-371). -/
def Martingale.win (p : PlayerState) (b : Bet) : PlayerState :=
  { Player.win p b with lossCount := 0, betMultiple := 1 }

/-- `Martingale.lose` (lines 373-376). -/
def Martingale.lose (p : PlayerState) (b : Bet) : PlayerState :=
  { Player.lose p b with
    lossCount := p.lossCount + 1,
    betMultiple := p.betMultiple * 2 }

/-- `Martingale.reset` (lines 378-381). -/
def Martingale.reset (p : PlayerState) : PlayerState :=
  { Player.reset p with lossCount := 0, betMultiple := 1 }

/-- Constructing a `PlayerRandom` (lines 383-394): the initializer is
spelled `_init_`, not `__init__`, so Python's attribute lookup for the
constructor finds only `Player.__init__`; none of the `_init_` body (rng,
outcome choice, `specificBet`) runs. -/
def PlayerRandom.construct : PlayerState := Player.init

/-- `PlayerRandom.placeBets` (lines 396-398). -/
def PlayerRandom.placeBets (p : PlayerState) (t : Table) :
    Except (PErr × PlayerState × Table) (PlayerState × Table) :=
  Player.placeBets { p with nextBet := p.initialBet } t

/-- Constructing a `PlayerCancellation` (lines 401-411): its initializer is
also spelled `_init_`, so only `Player.__init__` runs and neither
`sequence` nor `specificBet` is assigned. -/
def PlayerCancellation.construct : PlayerState := Player.init

/-- `PlayerCancellation.placeBets` (lines 413-418): reading `self.sequence`
unset raises `AttributeError`; with a non-empty sequence the next bet is
`sequence[0] + sequence[-1]` and the base `placeBets` runs; with an empty
sequence the method does nothing. -/
def PlayerCancellation.placeBets (p : PlayerState) (t : Table) :
    Except (PErr × PlayerState × Table) (PlayerState × Table) :=
  match p.sequence with
  | none => Except.error (PErr.attributeError "sequence", p, t)
  | some s =>
    if s.length > 0 then
      Player.placeBets { p with nextBet := s.headI + s.getLastI } t
    else Except.ok (p, t)

/-- `PlayerCancellation.win` (lines 420-424): base win, then when more than
one element remains pop the first and the last element of the sequence. -/
def PlayerCancellation.win (p : PlayerState) (b : Bet) :
    Except PErr PlayerState :=
  let p := Player.win p b
  match p.sequence with
  | none => Except.error (PErr.attributeError "sequence")
  | some s =>
    Except.ok (if s.length > 1 then { p with sequence := some s.tail.dropLast }
               else p)

/-- `PlayerCancellation.lose` (lines 426-428): base lose, then append
`sequence[0] + sequence[-1]`; on an empty sequence the indexing raises. -/
def PlayerCancellation.lose (p : PlayerState) (b : Bet) :
    Except PErr PlayerState :=
  let p := Player.lose p b
  match p.sequence with
  | none => Except.error (PErr.attributeError "sequence")
  | some [] => Except.error PErr.indexError
  | some s =>
    Except.ok { p with sequence := some (s ++ [s.headI + s.getLastI]) }

/-- `PlayerCancellation.resetSequence` (lines 430-431). -/
def PlayerCancellation.resetSequence (p : PlayerState) : PlayerState :=
  { p with sequence := some [1, 2, 3, 4, 5, 6] }

/-- `PlayerCancellation.reset` (lines 433-434): only `super().reset()`,
whose body is `pass`; in particular it does NOT call `resetSequence`. -/
def PlayerCancellation.reset (p : PlayerState) : PlayerState :=
  Player.reset p

/-- The error kind of a `placeBets` result. -/
def errKind : Except (PErr × PlayerState × Table) (PlayerState × Table) →
    Option PErr
  | Except.error (e, _, _) => some e
  | Except.ok _ => none

/-- The placed player's `nextBet` on the success path of `placeBets`. -/
def okNextBet : Except (PErr × PlayerState × Table) (PlayerState × Table) →
    Option Int
  | Except.ok (p, _) => some p.nextBet
  | Except.error _ => none

/-- `RouletteGame.cycle` (lines 298-312), as driven with the Martingale
player the top-level driver wires in (line 499): clear the table, let the
player place bets (propagating any raise), draw the winning bin from the
table's wheel with the next random index, settle every bet on the table by
name membership in that bin, and decrement `roundsToGo`.  `draws ix` is the
value of `self.rng.randint(0, 37)` for the `ix`-th spin. -/
def RouletteGame.cycle (draws : Nat → Fin 38) (ix : Nat)
    (p : PlayerState) (t : Table) :
    Except (PErr × PlayerState × Table) (PlayerState × Table) :=
  let t := t.clearBets
  match Martingale.placeBets p t with
  | Except.error e => Except.error e
  | Except.ok (p, t) =>
    let winningBin := t.wheel.bins.getD (draws ix).val []
    let p := t.bets.foldl
      (fun p b =>
        if winningBin.any (fun oc => oc.name == b.outcome.name) then
          Martingale.win p b
        else Martingale.lose p b) p
    Except.ok ({ p with roundsToGo := p.roundsToGo - 1 }, t)

/-- The session-scoped configuration set by `Simulator.__init__`
(lines 452-457): `initDuration`, `initStake` and `samples` attributes. -/
structure SimCfg where
  initDuration : Nat
  initStake : Int
  samples : Int
deriving Repr, DecidableEq

/-- The attribute values `Simulator.__init__` assigns (lines 455-457). -/
def Simulator.initCfg : SimCfg :=
  { initDuration := 250, initStake := 1000, samples := 100 }

/-- The player-field assignments at the top of `Simulator.session`
(lines 460-463): note the rounds budget is set from `samples`. -/
def sessionStart (cfg : SimCfg) (p : PlayerState) : PlayerState :=
  { p with
    stake := cfg.initStake, roundsToGo := cfg.samples,
    initialBet := 10, nextBet := 10 }

/-- The `while self.player.isPlaying()` loop of `Simulator.session`
(lines 466-472): cycle the game and record the stake after every cycle;
an `InvalidBet` raise is caught and ends the session with the list recorded
so far; any other raise propagates.  The loop is driven by explicit fuel;
every completed cycle decrements `roundsToGo` by one, so
`cfg.samples.toNat + 1` fuel is enough whenever the budget is
non-negative, and `outOfFuel` is unreachable then. -/
def sessionLoop (draws : Nat → Fin 38) :
    Nat → PlayerState → Table → Nat → List Int →
    Except PErr (List Int × PlayerState × Table × Nat)
  | 0, _, _, _, _ => Except.error PErr.outOfFuel
  | fuel + 1, p, t, ix, acc =>
    if p.isPlaying then
      match RouletteGame.cycle draws ix p t with
      | Except.error (PErr.invalidBet, p', t') =>
        Except.ok (acc, p', t', ix + 1)
      | Except.error (e, _, _) => Except.error e
      | Except.ok (p', t') =>
        sessionLoop draws fuel p' t' (ix + 1) (acc ++ [p'.stake])
    else Except.ok (acc, p, t, ix)

/-- `Simulator.session` (lines 459-472). -/
def sessionRun (cfg : SimCfg) (draws : Nat → Fin 38)
    (p : PlayerState) (t : Table) (ix : Nat) :
    Except PErr (List Int × PlayerState × Table × Nat) :=
  sessionLoop draws (cfg.samples.toNat + 1) (sessionStart cfg p) t ix []

/-- Python `max` over a list of ints: raises `ValueError` on the empty
list (this is the `max(sessionStakes)` of line 482). -/
def pymax : List Int → Except PErr Int
  | [] => Except.error PErr.valueError
  | x :: xs => Except.ok (xs.foldl max x)

/-- The `for _ in range(self.initDuration)` loop of `Simulator.gather`
(lines 478-482): reset the player, run a session, record its length in
`durations` and its maximum recorded stake in `maxima`. -/
def gatherLoop (cfg : SimCfg) (draws : Nat → Fin 38) :
    Nat → PlayerState → Table → Nat → List Int → List Int →
    Except PErr (List Int × List Int)
  | 0, _, _, _, maxima, durations => Except.ok (maxima, durations)
  | n + 1, p, t, ix, maxima, durations =>
    let p := Martingale.reset p
    match sessionRun cfg draws p t ix with
    | Except.error e => Except.error e
    | Except.ok (stakes, p', t', ix') =>
      let durations := durations ++ [(stakes.length : Int)]
      match pymax stakes with
      | Except.error e => Except.error e
      | Except.ok m =>
        gatherLoop cfg draws n p' t' ix' (maxima ++ [m]) durations

/-- `Simulator.gather` (lines 474-483): returns `(maxima, durations)`. -/
def gatherRun (cfg : SimCfg) (draws : Nat → Fin 38)
    (p : PlayerState) (t : Table) : Except PErr (List Int × List Int) :=
  gatherLoop cfg draws cfg.initDuration p t 0 [] []

/-- The driver pipeline (lines 496-500) with the wheel's seeded generator
made explicit: build the wheel, a table with the given limit on it, a
Martingale player, and gather.  `draws` stands for the stream of
`randint(0, 37)` values the generator seeded at wheel construction
produces. -/
def runSimulation (cfg : SimCfg) (limit : Int)
    (draws : Nat → Fin 38) : Except PErr (List Int × List Int) :=
  let t := Table.init limit theWheel
  gatherRun cfg draws (Martingale.init t) t

/-- Whether a bin holds an outcome with the given name. -/
def binHasName (b : Bin) (s : String) : Bool :=
  b.any (fun oc => oc.name == s)

/-- One-pass check of the red/black structure of a wheel's bins: every bin
1-36 holds "Red" exactly when its index is in `redNumbers` and "Black"
exactly otherwise, and bin 37 holds neither.  (Bin 0 is not constrained by
the claim.) -/
def redBlackOK (w : Wheel) : Bool :=
  w.bins.enum.all (fun pr =>
    if pr.1 = 0 then true
    else if pr.1 ≤ 36 then
      (binHasName pr.2 "Red" == redNumbers.contains pr.1)
        && (binHasName pr.2 "Black" == !(redNumbers.contains pr.1))
    else (!(binHasName pr.2 "Red")) && (!(binHasName pr.2 "Black")))

/-- The result of settling one round against the Martingale player. -/
inductive RoundRes where
  | win
  | lose
deriving Repr, DecidableEq

/-- The successive bet amounts a Martingale player submits when the rounds
settle as given: each round recomputes `nextBet = initialBet * betMultiple`
exactly as `Martingale.placeBets` does (line 365), submits a bet of that
size on Black, and settles it through `Martingale.win`/`Martingale.lose`. -/
def Martingale.betTrace (p : PlayerState) : List RoundRes → List Int
  | [] => []
  | r :: rs =>
    let amt := p.initialBet * p.betMultiple
    let b : Bet := { amount := amt, outcome := Outcome.mk "Black" 1 }
    let p' := { p with nextBet := amt }
    let p2 := match r with
      | RoundRes.win => Martingale.win p' b
      | RoundRes.lose => Martingale.lose p' b
    amt :: Martingale.betTrace p2 rs

/-- A cancellation player holding the starting sequence [1,2,3,4,5,6]
(the state `PlayerCancellation._init_` would have produced had it run). -/
def cancellationDemo : PlayerState :=
  { Player.init with
    sequence := some [1, 2, 3, 4, 5, 6],
    specificBet := some (Outcome.mk "Black" 1) }

/-- The opening bet of `cancellationDemo`: 1 + 6 = 7 staked on Black. -/
def demoBet : Bet := Bet.mk 7 (Outcome.mk "Black" 1)

/-- A limit-1000 table on the built wheel, roomy enough for the
cancellation demonstration. -/
def demoTable : Table := Table.init 1000 theWheel

/-- A limit-100 table on the built wheel (the driver's table, line 497). -/
def driverTable : Table := Table.init 100 theWheel

/-- C9: for every Outcome with odds d and amount a, `Outcome.winAmount a`
is the profit `d * a`, and for every Bet, `Bet.winAmount` is the profit
plus the returned stake `a + d * a`; in particular
`Outcome("x", 8).winAmount(10) = 80` and
`Bet(10, Outcome("x", 8)).winAmount() = 90`. -/
theorem winAmount_profit_and_stake (o : Outcome) (a : Int) (b : Bet) :
    o.winAmount a = o.odds * a
    ∧ b.winAmount = b.amount + b.outcome.odds * b.amount
    ∧ (Outcome.mk "x" 8).winAmount 10 = 80
    ∧ (Bet.mk 10 (Outcome.mk "x" 8)).winAmount = 90 :=
  ⟨rfl, rfl, by decide, by decide⟩

/-- C1 (the code contradicts the claim's unchanged-list requirement):
on the driver's limit-100 table, a first bet of 100 is admitted with no
raise and the bet list becomes [100]; a following bet of 1 makes the
prospective total 101 > 100, so `placeBet` raises the over-limit error —
but because the source appends the bet BEFORE validating (line 241), the
bet list after the raise is [100, 1], not the pre-call list [100]. -/
theorem placeBet_raises_but_keeps_invalid_bet :
    placeBetRaised (Table.placeBet driverTable (Bet.mk 100 (Outcome.mk "Black" 1)))
      = false
    ∧ (tableAfter (Table.placeBet driverTable (Bet.mk 100 (Outcome.mk "Black" 1)))).bets.map Bet.amount
      = [100]
    ∧ placeBetRaised
        (Table.placeBet
          (tableAfter (Table.placeBet driverTable (Bet.mk 100 (Outcome.mk "Black" 1))))
          (Bet.mk 1 (Outcome.mk "Black" 1)))
      = true
    ∧ (tableAfter
        (Table.placeBet
          (tableAfter (Table.placeBet driverTable (Bet.mk 100 (Outcome.mk "Black" 1))))
          (Bet.mk 1 (Outcome.mk "Black" 1)))).bets.map Bet.amount
      = [100, 1]
    ∧ ([100, 1] : List Int) ≠ [100] :=
  ⟨rfl, rfl, rfl, rfl, by decide⟩

/-- C3: constructing a `PlayerRandom` or a `PlayerCancellation` runs only
the base `Player.__init__` (their initializers are spelled `_init_`), so
`specificBet` resp. `sequence` are never assigned, and the first
`placeBets` call on a freshly constructed player raises an
`AttributeError` instead of placing a bet. -/
theorem misspelled_init_leaves_strategy_fields_unset :
    PlayerRandom.construct = Player.init
    ∧ PlayerCancellation.construct = Player.init
    ∧ PlayerRandom.construct.specificBet = none
    ∧ PlayerCancellation.construct.sequence = none
    ∧ PlayerCancellation.construct.specificBet = none
    ∧ errKind (PlayerRandom.placeBets PlayerRandom.construct driverTable)
      = some (PErr.attributeError "specificBet")
    ∧ errKind (PlayerCancellation.placeBets PlayerCancellation.construct driverTable)
      = some (PErr.attributeError "sequence") :=
  ⟨rfl, rfl, rfl, rfl, rfl, rfl, rfl⟩

/-- C4 counterexample: `PlayerCancellation.reset` does NOT restore the
cancellation sequence to [1,2,3,4,5,6] — its body is only
`super().reset()`, which is `pass` — so on a player whose sequence has
shrunk to [2,3,4,5] the sequence after `reset()` is still [2,3,4,5]. -/
theorem cancellation_reset_does_not_restore_sequence :
    (PlayerCancellation.reset
        { Player.init with sequence := some [2, 3, 4, 5] }).sequence
      = some [2, 3, 4, 5]
    ∧ (some [2, 3, 4, 5] : Option (List Int)) ≠ some [1, 2, 3, 4, 5, 6] :=
  ⟨rfl, by decide⟩

/-- C4 as amended: `Martingale.reset` restores `lossCount` to 0 and
`betMultiple` to 1 while leaving `stake` and `roundsToGo` unchanged;
`PlayerCancellation.reset` is a no-op that leaves the entire state (its
sequence included) unchanged — the sequence is restored to [1,2,3,4,5,6]
only by `resetSequence`, which `reset` never calls and which also leaves
`stake` and `roundsToGo` unchanged. -/
theorem reset_restores_martingale_state_only (p : PlayerState) :
    (Martingale.reset p).lossCount = 0
    ∧ (Martingale.reset p).betMultiple = 1
    ∧ (Martingale.reset p).stake = p.stake
    ∧ (Martingale.reset p).roundsToGo = p.roundsToGo
    ∧ PlayerCancellation.reset p = p
    ∧ (PlayerCancellation.resetSequence p).sequence = some [1, 2, 3, 4, 5, 6]
    ∧ (PlayerCancellation.resetSequence p).stake = p.stake
    ∧ (PlayerCancellation.resetSequence p).roundsToGo = p.roundsToGo :=
  ⟨rfl, rfl, rfl, rfl, rfl, rfl, rfl, rfl⟩

/-- C5: a Martingale player's bet each round is
`initialBet * betMultiple`, recomputed before placing
(`Martingale.placeBets` delegates to the base `placeBets` with exactly that
`nextBet`); `lose` doubles `betMultiple` and increments `lossCount`, `win`
resets them to 1 and 0; hence after the results loss, win, loss, loss the
successive bet sizes are `initialBet, 2*initialBet, initialBet,
2*initialBet`. -/
theorem martingale_doubling_trace (p q : PlayerState) (b : Bet) (t : Table) :
    Martingale.betTrace { p with betMultiple := 1 }
        [RoundRes.lose, RoundRes.win, RoundRes.lose, RoundRes.lose]
      = [p.initialBet, 2 * p.initialBet, p.initialBet, 2 * p.initialBet]
    ∧ (Martingale.lose q b).betMultiple = 2 * q.betMultiple
    ∧ (Martingale.lose q b).lossCount = q.lossCount + 1
    ∧ (Martingale.win q b).betMultiple = 1
    ∧ (Martingale.win q b).lossCount = 0
    ∧ Martingale.placeBets q t
      = Player.placeBets { q with nextBet := q.initialBet * q.betMultiple } t := by
  refine ⟨?_, ?_, rfl, rfl, rfl, rfl⟩
  · simp [Martingale.betTrace, Martingale.win, Martingale.lose,
      Player.win, Player.lose, mul_comm]
  · simp [Martingale.lose, Player.lose, mul_comm]

/-- C6: for a cancellation player with a non-empty sequence the round's
bet is `sequence[0] + sequence[-1]`; `win` removes the first and last
element when more than one remains, and `lose` appends `first + last`.
Concretely, from [1,2,3,4,5,6] a win leaves [2,3,4,5] and the next
`placeBets` stakes 7, while a loss leaves [1,2,3,4,5,6,7] and the next
`placeBets` stakes 8. -/
theorem cancellation_sequence_moves (p : PlayerState) (x y : Int)
    (ys xs : List Int) (b : Bet) (t : Table) :
    PlayerCancellation.placeBets { p with sequence := some (x :: xs) } t
      = Player.placeBets
          { p with
            sequence := some (x :: xs),
            nextBet := (x :: xs).headI + (x :: xs).getLastI } t
    ∧ PlayerCancellation.win { p with sequence := some (x :: y :: ys) } b
      = Except.ok
          { Player.win { p with sequence := some (x :: y :: ys) } b with
            sequence := some ((y :: ys).dropLast) }
    ∧ PlayerCancellation.lose { p with sequence := some (x :: xs) } b
      = Except.ok
          { Player.lose { p with sequence := some (x :: xs) } b with
            sequence :=
              some ((x :: xs) ++ [(x :: xs).headI + (x :: xs).getLastI]) }
    ∧ (PlayerCancellation.win cancellationDemo demoBet).map
        (fun q => q.sequence)
      = Except.ok (some [2, 3, 4, 5])
    ∧ ((PlayerCancellation.win cancellationDemo demoBet).bind
        (fun q =>
          (PlayerCancellation.placeBets q demoTable).mapError
            (fun e => e.1))).map
        (fun r => (r.1.nextBet, r.2.bets.map Bet.amount))
      = Except.ok (7, [7])
    ∧ (PlayerCancellation.lose cancellationDemo demoBet).map
        (fun q => q.sequence)
      = Except.ok (some [1, 2, 3, 4, 5, 6, 7])
    ∧ ((PlayerCancellation.lose cancellationDemo demoBet).bind
        (fun q =>
          (PlayerCancellation.placeBets q demoTable).mapError
            (fun e => e.1))).map
        (fun r => (r.1.nextBet, r.2.bets.map Bet.amount))
      = Except.ok (8, [8]) := by
  refine ⟨?_, ?_, ?_, rfl, rfl, rfl, rfl⟩
  · simp only [PlayerCancellation.placeBets]
    rw [if_pos (by simp)]
  · simp only [PlayerCancellation.win, Player.win]
    rw [if_pos (by simp only [List.length_cons]; omega)]
    rfl
  · simp only [PlayerCancellation.lose, Player.lose]

set_option maxRecDepth 1000000 in
/-- C8: on the built wheel, every bin 1-36 contains an Outcome named "Red"
exactly when its number is in the fixed 18-number red set and an Outcome
named "Black" exactly otherwise, and bin 37 (the "00" bin) contains
neither. -/
theorem wheel_red_black_structure : redBlackOK theWheel = true := by decide

/-- Helper for C2: every `Except.ok` return of the gather loop extends both
accumulators by exactly the iteration count. -/
theorem gatherLoop_ok_lengths (cfg : SimCfg) (draws : Nat → Fin 38) :
    ∀ (n : Nat) (p : PlayerState) (t : Table) (ix : Nat)
      (ms ds M D : List Int),
      gatherLoop cfg draws n p t ix ms ds = Except.ok (M, D) →
      M.length = ms.length + n ∧ D.length = ds.length + n := by
  intro n
  induction n with
  | zero =>
    intro p t ix ms ds M D h
    simp only [gatherLoop, Except.ok.injEq, Prod.mk.injEq] at h
    obtain ⟨h1, h2⟩ := h
    subst h1
    subst h2
    simp
  | succ n ih =>
    intro p t ix ms ds M D h
    simp only [gatherLoop] at h
    cases hs : sessionRun cfg draws (Martingale.reset p) t ix with
    | error e =>
      rw [hs] at h
      simp at h
    | ok r =>
      obtain ⟨stakes, p', t', ix'⟩ := r
      rw [hs] at h
      cases hm : pymax stakes with
      | error e =>
        simp only [hm] at h
        simp at h
      | ok m =>
        simp only [hm] at h
        obtain ⟨h1, h2⟩ :=
          ih p' t' ix' (ms ++ [m]) (ds ++ [(stakes.length : Int)]) M D h
        constructor
        · simp only [List.length_append, List.length_cons, List.length_nil] at h1
          omega
        · simp only [List.length_append, List.length_cons, List.length_nil] at h2
          omega

/-- C2 (the code contradicts the claim): whenever `gather()` returns, the
two returned sequences have length `initDuration` — the loop is
`for _ in range(self.initDuration)` (line 478) — not length `samples`,
even though `samples` is the Simulator's sample-count field; `samples`
is instead used as each session's rounds budget (line 461). -/
theorem gather_returns_initDuration_sessions (cfg : SimCfg)
    (draws : Nat → Fin 38) (p : PlayerState) (t : Table) (M D : List Int)
    (h : gatherRun cfg draws p t = Except.ok (M, D)) :
    M.length = cfg.initDuration ∧ D.length = cfg.initDuration := by
  have hl := gatherLoop_ok_lengths cfg draws cfg.initDuration p t 0 [] [] M D h
  simpa using hl

set_option maxRecDepth 1000000 in
/-- Witness for C2: with `initDuration = 2` and `samples = 1` on the
driver's table, `gather()` returns two sequences of length 2 (the
`initDuration`), although the sample-count field `samples` is 1. -/
theorem gather_returns_initDuration_sessions_witness :
    (([990, 990] : List Int).length = (SimCfg.mk 2 1000 1).initDuration
      ∧ ([1, 1] : List Int).length = (SimCfg.mk 2 1000 1).initDuration)
    ∧ (SimCfg.mk 2 1000 1).samples = 1
    ∧ (SimCfg.mk 2 1000 1).initDuration = 2 :=
  ⟨gather_returns_initDuration_sessions (SimCfg.mk 2 1000 1)
      (fun _ => (0 : Fin 38)) (Martingale.init driverTable) driverTable
      [990, 990] [1, 1] (by rfl),
    rfl, rfl⟩

/-- C10: when a session's very first round raises the over-limit error
(the session started playing but the first `placeBets` raised before any
stake was recorded), `session()` returns an empty trajectory, and
`gather()` — which takes `max(sessionStakes)` with no emptiness guard
(line 482) — raises `ValueError` instead of recording that session. -/
theorem gather_raises_on_empty_first_session (cfg : SimCfg)
    (draws : Nat → Fin 38) (p : PlayerState) (t : Table)
    (hd : 0 < cfg.initDuration)
    (hplay : (sessionStart cfg (Martingale.reset p)).isPlaying = true)
    (hraise : errKind (Martingale.placeBets
        (sessionStart cfg (Martingale.reset p)) (Table.clearBets t))
      = some PErr.invalidBet) :
    (sessionRun cfg draws (Martingale.reset p) t 0).map (fun r => r.1)
      = Except.ok ([] : List Int)
    ∧ gatherRun cfg draws p t = Except.error PErr.valueError := by
  cases he : Martingale.placeBets (sessionStart cfg (Martingale.reset p))
      (Table.clearBets t) with
  | ok r =>
    rw [he] at hraise
    simp [errKind] at hraise
  | error err =>
    obtain ⟨e, p1, t1⟩ := err
    rw [he] at hraise
    simp only [errKind, Option.some.injEq] at hraise
    subst hraise
    have hcycle : RouletteGame.cycle draws 0
        (sessionStart cfg (Martingale.reset p)) t
        = Except.error (PErr.invalidBet, p1, t1) := by
      simp only [RouletteGame.cycle, he]
    have hsess : sessionRun cfg draws (Martingale.reset p) t 0
        = Except.ok ([], p1, t1, 1) := by
      simp only [sessionRun, sessionLoop, hplay, hcycle, if_true]
    obtain ⟨m, hm⟩ : ∃ m, cfg.initDuration = m + 1 :=
      ⟨cfg.initDuration - 1, by omega⟩
    refine ⟨by rw [hsess]; rfl, ?_⟩
    simp only [gatherRun, hm, gatherLoop, hsess, pymax, List.length_nil]

set_option maxRecDepth 1000000 in
/-- Witness for C10: a limit-5 table makes the Martingale player's very
first bet of 10 over-limit, so the first session records nothing and
`gather()` fails with `ValueError`. -/
theorem gather_raises_on_empty_first_session_witness :
    ((sessionRun (SimCfg.mk 1 1000 5) (fun _ => (0 : Fin 38))
        (Martingale.reset (Martingale.init (Table.init 5 theWheel)))
        (Table.init 5 theWheel) 0).map (fun r => r.1)
      = Except.ok ([] : List Int))
    ∧ gatherRun (SimCfg.mk 1 1000 5) (fun _ => (0 : Fin 38))
        (Martingale.init (Table.init 5 theWheel)) (Table.init 5 theWheel)
      = Except.error PErr.valueError :=
  gather_raises_on_empty_first_session (SimCfg.mk 1 1000 5)
    (fun _ => (0 : Fin 38)) (Martingale.init (Table.init 5 theWheel))
    (Table.init 5 theWheel) (by decide) (by rfl) (by rfl)

/-- C7: re-running the full simulation pipeline with the same seed (and
the same configuration and limit) yields identical `(maxima, durations)`
results.  `prng` models the deterministic pseudo-random generator: a wheel
seeded with `s` spins the draw stream `prng s`, and `runSimulation`'s only
source of randomness is that stream — every other input is configuration —
so equal seeds force equal bin draws and equal session trajectories. -/
theorem gather_deterministic_in_seed (prng : Nat → Nat → Fin 38)
    (cfg : SimCfg) (limit : Int) (s1 s2 : Nat) (h : s1 = s2) :
    runSimulation cfg limit (prng s1) = runSimulation cfg limit (prng s2) := by
  rw [h]

/-- Witness for C7: the pipeline at the source's own seed 4, twice. -/
theorem gather_deterministic_in_seed_witness :
    runSimulation Simulator.initCfg 100 ((fun _ _ => (0 : Fin 38)) 4)
      = runSimulation Simulator.initCfg 100 ((fun _ _ => (0 : Fin 38)) 4) :=
  gather_deterministic_in_seed (fun _ _ => (0 : Fin 38))
    Simulator.initCfg 100 4 4 rfl

end Roulette
